import Mathlib

/-
Verification of the deresearcher client SDK and its protocol spec.

The repository holds the solita-generated TypeScript client of the
deresearcher on-chain program together with its integration tests.  We
shallowly embed:

  * the seed lists the tests build for `findProgramAddressSync`
    (js/tests/integration.test.ts and the unnamed older test file);
  * the generated `createPublishPaperInstruction` encoder
    (js/src/generated/instructions/PublishPaper.ts);
  * the `accountProviders` maps (the two versions of accounts/index.ts
    found in the unnamed sources);
  * the program constants (js/src/generated/index.ts).

The on-chain handlers themselves are not in the repository; where a
property is decided by them they are modelled from the spec, and each
such definition says so in its doc comment.
-/

/-- UTF-8 bytes of an ASCII character list, as `Buffer.from` produces for
the ASCII strings used in this repository. -/
def charBytes (l : List Char) : List Nat := l.map Char.toNat

/-- Bytes of an ASCII string literal. -/
def strBytes (s : String) : List Nat := charBytes s.data

/-- Seed list for a ResearcherProfile address, from
integration.test.ts lines 39-42: `[Buffer.from("deres_researcher_profile"),
wallet.publicKey.toBuffer()]`. -/
def researcherProfileSeeds (researcher : List Nat) : List (List Nat) :=
  [strBytes "deres_researcher_profile", researcher]

/-- JS `s.slice(0, 32)` on the content-hash string, as used in
integration.test.ts line 171 before seeding. -/
def jsSlice32 (s : List Char) : List Char := s.take 32

/-- Seed list for a ResearchPaper address, from integration.test.ts
lines 169-173: `[Buffer.from("deres_research_paper"),
Buffer.from(paperContentHash.slice(0, 32)), wallet.publicKey.toBuffer()]`. -/
def researchPaperSeeds (contentHash : List Char) (publisher : List Nat) :
    List (List Nat) :=
  [strBytes "deres_research_paper", charBytes (jsSlice32 contentHash), publisher]

/-- Seed list for a PeerReview address, from integration.test.ts
lines 333-340. -/
def peerReviewSeeds (paper : List Nat) (reviewer : List Nat) : List (List Nat) :=
  [strBytes "deres_peer_review", paper, reviewer]

/-- Seed list for a ResearchMintCollection address, from
integration.test.ts lines 467-474 and the unnamed test lines 361-368. -/
def mintCollectionSeeds (reader : List Nat) : List (List Nat) :=
  [strBytes "deres_mint_collection", reader]

/-- A public key as the client handles it: `new PublicKey(base58)` keeps
the given base-58 form. -/
structure PublicKey where
  base58 : String
deriving DecidableEq, Repr

/-- `PROGRAM_ADDRESS` from js/src/generated/index.ts. -/
def PROGRAM_ADDRESS : String := "P1SsZEQvb6gTPrdJQ5mu6oCyJCJhVKxFFnk9ztjsoEL"

/-- `PROGRAM_ID = new PublicKey(PROGRAM_ADDRESS)` from
js/src/generated/index.ts. -/
def PROGRAM_ID : PublicKey := { base58 := PROGRAM_ADDRESS }

/-- An account meta entry of a transaction instruction. -/
structure AccountMeta where
  pubkey : PublicKey
  isWritable : Bool
  isSigner : Bool
deriving DecidableEq, Repr

/-- A built transaction instruction: program id, ordered account metas,
payload bytes. -/
structure TransactionInstruction where
  programId : PublicKey
  keys : List AccountMeta
  data : List Nat
deriving DecidableEq, Repr

/-- `PublishPaperInstructionAccounts` from PublishPaper.ts. -/
structure PublishPaperInstructionAccounts where
  publisherAcc : PublicKey
  paperPdaAcc : PublicKey
deriving DecidableEq, Repr

/-- `publishPaperInstructionDiscriminator = 2` from PublishPaper.ts
line 33. -/
def publishPaperInstructionDiscriminator : Nat := 2

/-- The argument record serialized by `PublishPaperStruct`: a single u8
field `instructionDiscriminator` (PublishPaper.ts lines 16-18). -/
structure PublishPaperInstructionArgs where
  instructionDiscriminator : Nat
deriving DecidableEq, Repr

/-- `PublishPaperStruct.serialize`: the beet struct
`[['instructionDiscriminator', beet.u8]]` writes exactly one byte. -/
def PublishPaperStruct.serialize (args : PublishPaperInstructionArgs) :
    List Nat :=
  [args.instructionDiscriminator % 256]

/-- `createPublishPaperInstruction` from PublishPaper.ts lines 43-69,
with its `programId` parameter passed explicitly. -/
def createPublishPaperInstructionWith
    (accounts : PublishPaperInstructionAccounts) (programId : PublicKey) :
    TransactionInstruction :=
  { programId := programId
    keys :=
      [ { pubkey := accounts.publisherAcc, isWritable := true, isSigner := true }
      , { pubkey := accounts.paperPdaAcc, isWritable := true, isSigner := false } ]
    data := PublishPaperStruct.serialize
      { instructionDiscriminator := publishPaperInstructionDiscriminator } }

/-- `createPublishPaperInstruction` called with its `programId` parameter
omitted: the TypeScript default is
`new web3.PublicKey('P1SsZEQvb6gTPrdJQ5mu6oCyJCJhVKxFFnk9ztjsoEL')`
(PublishPaper.ts line 45). -/
def createPublishPaperInstruction
    (accounts : PublishPaperInstructionAccounts) : TransactionInstruction :=
  createPublishPaperInstructionWith accounts
    { base58 := "P1SsZEQvb6gTPrdJQ5mu6oCyJCJhVKxFFnk9ztjsoEL" }

/-- The `accountProviders` map of the first accounts/index.ts variant in
the unnamed sources (entry names, lines 11-16). -/
def accountProviders : List String :=
  ["ResearcherProfile", "ResearchPaper", "PeerReview", "ResearchTokenAccount"]

/-- The `accountProviders` map of the second accounts/index.ts variant in
the unnamed sources (entry names, lines 27-32). -/
def accountProviders' : List String :=
  ["ResearcherProfile", "ResearchPaper", "PeerReview", "ReaderWhitelist"]

/-- Modelled from the spec: the Address Deriver's bump search (§4.1) is
not under src/ (the client calls the external ledger's
`findProgramAddressSync`).  Descending from the given bump, return the
first candidate address that is off-curve, or none (`DerivationExhausted`)
if the search space is exhausted. -/
def deriveSearch (offCurve : List Nat → Bool) (candidate : Nat → List Nat) :
    Nat → Option (List Nat × Nat)
  | 0 => if offCurve (candidate 0) then some (candidate 0, 0) else none
  | b + 1 =>
    if offCurve (candidate (b + 1)) then some (candidate (b + 1), b + 1)
    else deriveSearch offCurve candidate b

/-- Modelled from the spec: `derive(program_id, seed_parts) → (address,
bump)` (§4.1) is not under src/.  The hash underlying candidate-address
computation and the off-curve predicate are the external ledger's
primitives, taken as parameters; the search runs over bump ∈ [0, 255]
descending from 255. -/
def derive (candidate : List Nat → List (List Nat) → Nat → List Nat)
    (offCurve : List Nat → Bool) (programId : List Nat)
    (seeds : List (List Nat)) : Option (List Nat × Nat) :=
  deriveSearch offCurve (candidate programId seeds) 255

/-- A ResearchPaper account (§3): publisher identity key, 32-byte content
hash, access fee, metadata commitment, published flag, bump. -/
structure ResearchPaper where
  publisher : List Nat
  paperContentHash : List Nat
  accessFee : Nat
  metaDataMerkleRoot : List Nat
  published : Bool
  pdaBump : Nat
deriving DecidableEq, Repr

/-- Errors of the PublishPaper handler (§4.5). -/
inductive PublishError
  | AlreadyPublished
  | Unauthorized
deriving DecidableEq, Repr

/-- Modelled from the spec: the on-chain PublishPaper handler (§4.5) is
not under src/ (only its client encoder and tests are).  Validation, in
the spec's order: paper.published == false, then signer matches the
stored publisher key; effect: published := true.  An error aborts the
transaction, leaving the account unchanged. -/
def publishPaper (signer : List Nat) (paper : ResearchPaper) :
    Except PublishError ResearchPaper :=
  if paper.published then Except.error PublishError.AlreadyPublished
  else if signer ≠ paper.publisher then Except.error PublishError.Unauthorized
  else Except.ok { paper with published := true }

/-- Errors of the CreateResearchPaper handler (§4.3). -/
inductive CreatePaperError
  | ProfileNotFound
  | DuplicatePaper
  | InvalidContentHash
  | AddressMismatch
deriving DecidableEq, Repr

/-- Modelled from the spec: the on-chain CreateResearchPaper handler
(§4.3) is not under src/.  The snapshot facts the dispatcher resolves
(whether the signer's profile and the target paper account exist, and the
recomputed derived address) are passed in.  Input well-formedness — the
content hash must be exactly 32 bytes — is checked first; then the
address, duplicate and profile checks, failing fast. -/
def createResearchPaper (signer : List Nat) (paperAddr : List Nat)
    (contentHash : List Nat) (accessFee : Nat) (metaRoot : List Nat)
    (bump : Nat) (profileExists : Bool) (paperExists : Bool)
    (derivedAddr : List Nat × Nat) : Except CreatePaperError ResearchPaper :=
  if contentHash.length ≠ 32 then Except.error CreatePaperError.InvalidContentHash
  else if (paperAddr, bump) ≠ derivedAddr then
    Except.error CreatePaperError.AddressMismatch
  else if paperExists then Except.error CreatePaperError.DuplicatePaper
  else if !profileExists then Except.error CreatePaperError.ProfileNotFound
  else Except.ok
    { publisher := signer
      paperContentHash := contentHash
      accessFee := accessFee
      metaDataMerkleRoot := metaRoot
      published := false
      pdaBump := bump }

/-- C1 counterexample: at the concrete researcher/publisher key of 32 zero
bytes (and the test's own content hash), the first seed the client uses is
NOT the bare §6 domain tag — for none of the four entities.  The client
prefixes every tag with "deres_". -/
theorem seed_tag_literal_counterexample :
    (researcherProfileSeeds (List.replicate 32 0)).head? ≠
      some (strBytes "researcher_profile") ∧
    (researchPaperSeeds "48y2ehidkhdkhadahkhadhiakhdiaydh".data
        (List.replicate 32 0)).head? ≠ some (strBytes "research_paper") ∧
    (peerReviewSeeds (List.replicate 32 1) (List.replicate 32 0)).head? ≠
      some (strBytes "peer_review") ∧
    (mintCollectionSeeds (List.replicate 32 0)).head? ≠
      some (strBytes "mint_collection") := by
  refine ⟨?_, ?_, ?_, ?_⟩ <;> decide

/-- C1 (amended): for every entity in the §6 seed table, the first seed the
client uses is the §6 domain tag prefixed with the ASCII namespace
"deres_": "deres_researcher_profile" for ResearcherProfile,
"deres_research_paper" for ResearchPaper, "deres_peer_review" for
PeerReview, and "deres_mint_collection" for ResearchMintCollection. -/
theorem seed_tags_deres_prefixed (researcher publisher paper reviewer reader :
    List Nat) (contentHash : List Char) :
    (researcherProfileSeeds researcher).head? =
      some (strBytes "deres_researcher_profile") ∧
    (researchPaperSeeds contentHash publisher).head? =
      some (strBytes "deres_research_paper") ∧
    (peerReviewSeeds paper reviewer).head? =
      some (strBytes "deres_peer_review") ∧
    (mintCollectionSeeds reader).head? =
      some (strBytes "deres_mint_collection") :=
  ⟨rfl, rfl, rfl, rfl⟩

/-- C2: for every accounts argument and every programId, the payload built
by createPublishPaperInstruction has first byte 2, the PublishPaper
discriminator. -/
theorem publishPaper_discriminator_first_byte
    (accounts : PublishPaperInstructionAccounts) (programId : PublicKey) :
    (createPublishPaperInstructionWith accounts programId).data.head? =
      some 2 :=
  rfl

/-- C3 (code versus spec and tests): for every accounts argument and every
programId, the payload built by createPublishPaperInstruction is exactly
the single discriminator byte — no expected-bump argument is encoded after
it, although both test files pass a `publishPaper: { pdaBump }` argument
record to the builder. -/
theorem publishPaper_payload_only_discriminator
    (accounts : PublishPaperInstructionAccounts) (programId : PublicKey) :
    (createPublishPaperInstructionWith accounts programId).data = [2] :=
  rfl

/-- C4: for every accounts argument and every programId, the instruction
lists its account metas in the order [publisherAcc, paperPdaAcc], with
publisherAcc writable and signer and paperPdaAcc writable and
non-signer. -/
theorem publishPaper_account_metas
    (accounts : PublishPaperInstructionAccounts) (programId : PublicKey) :
    (createPublishPaperInstructionWith accounts programId).keys =
      [ { pubkey := accounts.publisherAcc, isWritable := true, isSigner := true }
      , { pubkey := accounts.paperPdaAcc, isWritable := true,
          isSigner := false } ] :=
  rfl

/-- C7 (code versus spec and tests): neither variant of the
accountProviders map has an entry named "ResearchMintCollection", though
the tests dereference accountProviders.ResearchMintCollection; the first
variant also lacks "ReaderWhitelist" and the second lacks
"ResearchTokenAccount", so no variant covers all six schema names. -/
theorem accountProviders_missing_mint_collection :
    "ResearchMintCollection" ∉ accountProviders ∧
    "ResearchMintCollection" ∉ accountProviders' ∧
    "ReaderWhitelist" ∉ accountProviders ∧
    "ResearchTokenAccount" ∉ accountProviders' := by
  refine ⟨?_, ?_, ?_, ?_⟩ <;> decide

/-- C9: for every accounts argument, createPublishPaperInstruction with
programId omitted uses the program id whose base-58 form is
'P1SsZEQvb6gTPrdJQ5mu6oCyJCJhVKxFFnk9ztjsoEL', which equals the PROGRAM_ID
constant of js/src/generated/index.ts. -/
theorem publishPaper_default_program_id
    (accounts : PublishPaperInstructionAccounts) :
    (createPublishPaperInstruction accounts).programId.base58 =
      "P1SsZEQvb6gTPrdJQ5mu6oCyJCJhVKxFFnk9ztjsoEL" ∧
    (createPublishPaperInstruction accounts).programId = PROGRAM_ID :=
  ⟨rfl, rfl⟩

/-- C5: PublishPaper is a one-way transition.  From a Draft paper
(published = false): the publisher's PublishPaper succeeds and sets
published = true; any subsequent PublishPaper on the resulting paper, by
any signer, fails with AlreadyPublished (an error aborts the transaction,
so the paper is unchanged); and every successful PublishPaper leaves
published = true, so Published is terminal and never reversed. -/
theorem publishPaper_one_way (s t : List Nat) (p q r : ResearchPaper)
    (h : p.published = false) :
    publishPaper p.publisher p = Except.ok { p with published := true } ∧
    (publishPaper p.publisher p = Except.ok q →
      publishPaper s q = Except.error PublishError.AlreadyPublished) ∧
    (publishPaper t p = Except.ok r → r.published = true) := by
  refine ⟨?_, ?_, ?_⟩
  · simp [publishPaper, h]
  · intro hq
    simp [publishPaper, h] at hq
    simp [publishPaper, ← hq]
  · intro hr
    unfold publishPaper at hr
    split at hr
    · exact absurd hr (by simp)
    · split at hr
      · exact absurd hr (by simp)
      · rw [Except.ok.injEq] at hr
        subst hr
        rfl

/-- C6: the Address Deriver is deterministic — whenever two derivations
with the same candidate-address and off-curve primitives, the same program
id and the same seed sequence both succeed, they return the same
(address, bump) pair. -/
theorem derive_deterministic
    (candidate : List Nat → List (List Nat) → Nat → List Nat)
    (offCurve : List Nat → Bool) (programId : List Nat)
    (seeds : List (List Nat)) (r₁ r₂ : List Nat × Nat)
    (h₁ : derive candidate offCurve programId seeds = some r₁)
    (h₂ : derive candidate offCurve programId seeds = some r₂) :
    r₁ = r₂ := by
  rw [h₁] at h₂
  exact Option.some.inj h₂

/-- C8: CreateResearchPaper fails with InvalidContentHash on every input
whose content hash is not exactly 32 bytes, whatever the other arguments
and snapshot facts are; and on a 32-byte content-hash string the seed the
client uses (the slice of the first 32 characters) is that same value. -/
theorem createResearchPaper_content_hash
    (signer paperAddr badHash metaRoot pub : List Nat) (fee bump : Nat)
    (profileExists paperExists : Bool) (derivedAddr : List Nat × Nat)
    (hash : List Char) (hbad : badHash.length ≠ 32)
    (hlen : hash.length = 32) :
    createResearchPaper signer paperAddr badHash fee metaRoot bump
        profileExists paperExists derivedAddr =
      Except.error CreatePaperError.InvalidContentHash ∧
    researchPaperSeeds hash pub =
      [strBytes "deres_research_paper", charBytes hash, pub] := by
  constructor
  · simp [createResearchPaper, hbad]
  · simp only [researchPaperSeeds, jsSlice32]
    rw [List.take_of_length_le (le_of_eq hlen)]

/-- C10: the paper address the client derives depends only on the first 32
characters of the content-hash string — two hashes agreeing on that prefix
give the same seed list, hence the same derived address, for every choice
of derivation primitives, program id and publisher. -/
theorem paper_address_prefix_collision
    (candidate : List Nat → List (List Nat) → Nat → List Nat)
    (offCurve : List Nat → Bool) (programId publisher : List Nat)
    (h₁ h₂ : List Char) (h : h₁.take 32 = h₂.take 32) :
    researchPaperSeeds h₁ publisher = researchPaperSeeds h₂ publisher ∧
    derive candidate offCurve programId (researchPaperSeeds h₁ publisher) =
      derive candidate offCurve programId (researchPaperSeeds h₂ publisher) := by
  have hs : researchPaperSeeds h₁ publisher = researchPaperSeeds h₂ publisher := by
    simp [researchPaperSeeds, jsSlice32, h]
  exact ⟨hs, by rw [hs]⟩

/-- C5 witness: the one-way publish transition evaluated on a concrete
draft paper. -/
theorem publishPaper_one_way_witness :
    (⟨List.replicate 32 0, List.replicate 32 7, 100, List.replicate 32 3,
        false, 254⟩ : ResearchPaper).published = false ∧
    (publishPaper (List.replicate 32 0)
        ⟨List.replicate 32 0, List.replicate 32 7, 100, List.replicate 32 3,
          false, 254⟩ =
      Except.ok ⟨List.replicate 32 0, List.replicate 32 7, 100,
        List.replicate 32 3, true, 254⟩ ∧
    (publishPaper (List.replicate 32 0)
        ⟨List.replicate 32 0, List.replicate 32 7, 100, List.replicate 32 3,
          false, 254⟩ =
        Except.ok ⟨List.replicate 32 0, List.replicate 32 7, 100,
          List.replicate 32 3, true, 254⟩ →
      publishPaper (List.replicate 32 1)
        ⟨List.replicate 32 0, List.replicate 32 7, 100, List.replicate 32 3,
          true, 254⟩ =
        Except.error PublishError.AlreadyPublished) ∧
    (publishPaper (List.replicate 32 0)
        ⟨List.replicate 32 0, List.replicate 32 7, 100, List.replicate 32 3,
          false, 254⟩ =
        Except.ok ⟨List.replicate 32 0, List.replicate 32 7, 100,
          List.replicate 32 3, true, 254⟩ →
      (⟨List.replicate 32 0, List.replicate 32 7, 100, List.replicate 32 3,
          true, 254⟩ : ResearchPaper).published = true)) :=
  ⟨rfl, publishPaper_one_way (List.replicate 32 1) (List.replicate 32 0)
    ⟨List.replicate 32 0, List.replicate 32 7, 100, List.replicate 32 3,
      false, 254⟩
    ⟨List.replicate 32 0, List.replicate 32 7, 100, List.replicate 32 3,
      true, 254⟩
    ⟨List.replicate 32 0, List.replicate 32 7, 100, List.replicate 32 3,
      true, 254⟩ rfl⟩

/-- C6 witness: determinism of derive evaluated with concrete primitives
(candidate bump b maps to [b], everything off-curve), concrete program id
and seeds. -/
theorem derive_deterministic_witness :
    derive (fun _ _ b => [b]) (fun _ => true) (List.replicate 32 0)
        (researcherProfileSeeds (List.replicate 32 1)) =
      some ([255], 255) ∧
    (([255], 255) : List Nat × Nat) = ([255], 255) :=
  ⟨rfl,
    derive_deterministic (fun _ _ b => [b]) (fun _ => true)
      (List.replicate 32 0) (researcherProfileSeeds (List.replicate 32 1))
      ([255], 255) ([255], 255) rfl rfl⟩

/-- C8 witness: a 31-byte content hash is rejected with InvalidContentHash
whatever the rest of the input, and the test's 32-character content hash
is used whole as the paper seed. -/
theorem createResearchPaper_content_hash_witness :
    (List.replicate 31 0 : List Nat).length ≠ 32 ∧
    ("48y2ehidkhdkhadahkhadhiakhdiaydh".data).length = 32 ∧
    (createResearchPaper (List.replicate 32 0) (List.replicate 32 2)
        (List.replicate 31 0) 100 (List.replicate 32 3) 254 true false
        (List.replicate 32 2, 254) =
      Except.error CreatePaperError.InvalidContentHash ∧
    researchPaperSeeds "48y2ehidkhdkhadahkhadhiakhdiaydh".data
        (List.replicate 32 0) =
      [strBytes "deres_research_paper",
        charBytes "48y2ehidkhdkhadahkhadhiakhdiaydh".data,
        List.replicate 32 0]) :=
  ⟨by decide, by decide,
    createResearchPaper_content_hash (List.replicate 32 0)
      (List.replicate 32 2) (List.replicate 31 0) (List.replicate 32 3)
      (List.replicate 32 0) 100 254 true false (List.replicate 32 2, 254)
      "48y2ehidkhdkhadahkhadhiakhdiaydh".data (by decide) (by decide)⟩

/-- C10 witness: the test's 64-character content hash and its 32-character
prefix agree on their first 32 characters and so produce the same seed
list and the same derived address. -/
theorem paper_address_prefix_collision_witness :
    ("0a69c09f7c1eca87a0a6fb108e3aeb1929a2e4bb732a021612730325fd5875b2".data).take
        32 =
      ("0a69c09f7c1eca87a0a6fb108e3aeb19".data).take 32 ∧
    (researchPaperSeeds
        "0a69c09f7c1eca87a0a6fb108e3aeb1929a2e4bb732a021612730325fd5875b2".data
        (List.replicate 32 0) =
      researchPaperSeeds "0a69c09f7c1eca87a0a6fb108e3aeb19".data
        (List.replicate 32 0) ∧
    derive (fun _ _ b => [b]) (fun _ => true) (List.replicate 32 0)
        (researchPaperSeeds
          "0a69c09f7c1eca87a0a6fb108e3aeb1929a2e4bb732a021612730325fd5875b2".data
          (List.replicate 32 0)) =
      derive (fun _ _ b => [b]) (fun _ => true) (List.replicate 32 0)
        (researchPaperSeeds "0a69c09f7c1eca87a0a6fb108e3aeb19".data
          (List.replicate 32 0))) :=
  ⟨by decide,
    paper_address_prefix_collision (fun _ _ b => [b]) (fun _ => true)
      (List.replicate 32 0) (List.replicate 32 0)
      "0a69c09f7c1eca87a0a6fb108e3aeb1929a2e4bb732a021612730325fd5875b2".data
      "0a69c09f7c1eca87a0a6fb108e3aeb19".data (by decide)⟩
